import Mathlib

/-!
Shallow embedding of the Bayesian (ProbabilisticDense) dense layer and its
variational loss from the `aorun` neural-network library.

Source of authority:
* `src/aorun/layers.py` — the `Layer`, `Dense` and `ProbabilisticDense`
  classes; embedded faithfully below.
* `aorun/losses.py` (`log_gaussian`, `variational_loss`) and
  `aorun/models.py` (`Model`) are not part of the available sources; their
  definitions below are modelled from the specification and are marked as
  such in their doc comments.

Tensors are embedded as functions out of `Fin` index types, so a tensor's
shape is carried by its type.  Randomness is made explicit: the standard
normal draws consumed by a forward pass are an argument of the embedded
`forward`, and `torch.normal(mean, std)` is embedded as
`fun i => mean i + std * z i` over those draws.
-/

open scoped BigOperators

/-- `softplus x = log(1 + exp x)`; in the source this appears as
`torch.log1p(torch.exp(rho))` in `ProbabilisticDense.forward`
(src/aorun/layers.py lines 94 and 97). -/
noncomputable def softplus (x : ℝ) : ℝ := Real.log (1 + Real.exp x)

/-- `sigma_prior = math.exp(-3)` from `ProbabilisticDense.forward`
(src/aorun/layers.py line 91); also the fixed prior scale of the spec. -/
noncomputable def sigma_prior : ℝ := Real.exp (-3)

/-- Elementwise embedding of `torch.normal(mean, std)` on a matrix-shaped
mean tensor: each entry is `mean + std * z` where `z` is the standard
normal draw supplied by the environment for that entry. -/
def torch_normal_mat {d u : ℕ} (mean : Fin d → Fin u → ℝ) (std : ℝ)
    (z : Fin d → Fin u → ℝ) : Fin d → Fin u → ℝ :=
  fun i j => mean i j + std * z i j

/-- Elementwise embedding of `torch.normal(mean, std)` on a vector-shaped
mean tensor. -/
def torch_normal_vec {u : ℕ} (mean : Fin u → ℝ) (std : ℝ)
    (z : Fin u → ℝ) : Fin u → ℝ :=
  fun j => mean j + std * z j

/-- `X @ W` for a `[batch, d]` input against a `[d, u]` weight matrix. -/
def matmul {b d u : ℕ} (X : Fin b → Fin d → ℝ) (W : Fin d → Fin u → ℝ) :
    Fin b → Fin u → ℝ :=
  fun r c => ∑ k, X r k * W k c

/-- The state of a built `ProbabilisticDense` layer with input width `d`
and output width `u` (src/aorun/layers.py lines 66–99): the four learnable
parameter tensors allocated by `build`, plus the retained sample slots
`W` and `b`, which do not exist (`none`) until the first forward pass. -/
structure PDState (d u : ℕ) where
  W_mu : Fin d → Fin u → ℝ
  W_rho : Fin d → Fin u → ℝ
  b_mu : Fin u → ℝ
  b_rho : Fin u → ℝ
  W : Option (Fin d → Fin u → ℝ)
  b : Option (Fin u → ℝ)

/-- The per-call noise: standard normal draws for the weight-shaped and
bias-shaped `eps` tensors of one forward pass. -/
structure Noise (d u : ℕ) where
  zW : Fin d → Fin u → ℝ
  zb : Fin u → ℝ

/-- `W_eps = torch.normal(torch.zeros(d, u), std=sigma_prior)`
(src/aorun/layers.py lines 92–93). -/
noncomputable def Noise.epsW {d u : ℕ} (nz : Noise d u) : Fin d → Fin u → ℝ :=
  torch_normal_mat (fun _ _ => 0) sigma_prior nz.zW

/-- `b_eps = torch.normal(torch.zeros(u), std=sigma_prior)`
(src/aorun/layers.py lines 95–96). -/
noncomputable def Noise.epsb {d u : ℕ} (nz : Noise d u) : Fin u → ℝ :=
  torch_normal_vec (fun _ => 0) sigma_prior nz.zb

/-- The sampled weight tensor `W = W_mu + log1p(exp(W_rho)) * W_eps`
of one forward call (src/aorun/layers.py line 94). -/
noncomputable def sampleW {d u : ℕ} (st : PDState d u) (nz : Noise d u) :
    Fin d → Fin u → ℝ :=
  fun i j => st.W_mu i j + softplus (st.W_rho i j) * nz.epsW i j

/-- The sampled bias tensor `b = b_mu + log1p(exp(b_rho)) * b_eps`
of one forward call (src/aorun/layers.py line 97). -/
noncomputable def sampleb {d u : ℕ} (st : PDState d u) (nz : Noise d u) :
    Fin u → ℝ :=
  fun j => st.b_mu j + softplus (st.b_rho j) * nz.epsb j

/-- `ProbabilisticDense.forward` (src/aorun/layers.py lines 89–99) on a
built layer: draws `W_eps`, `b_eps`, forms the reparameterized samples,
stores them in the `W`/`b` slots, and returns `X @ W + b.expand_as(XW)`.
The returned pair is (output tensor, updated layer state). -/
noncomputable def PDState.forward {d u bsz : ℕ} (st : PDState d u)
    (X : Fin bsz → Fin d → ℝ) (nz : Noise d u) :
    (Fin bsz → Fin u → ℝ) × PDState d u :=
  let Ws := sampleW st nz
  let bs := sampleb st nz
  let XW := matmul X Ws
  (fun r c => XW r c + bs c, { st with W := some Ws, b := some bs })

/-- The trainable-parameter accessor of a built `ProbabilisticDense`
layer: `(self.W_mu, self.W_rho, self.b_mu, self.b_rho)` in that order
(src/aorun/layers.py lines 76–78). -/
def PDState.paramsTuple {d u : ℕ} (st : PDState d u) :
    (Fin d → Fin u → ℝ) × (Fin d → Fin u → ℝ) × (Fin u → ℝ) × (Fin u → ℝ) :=
  (st.W_mu, st.W_rho, st.b_mu, st.b_rho)

/-- Modelled from the spec: `log_gaussian` lives in `aorun/losses.py`,
which is not among the available sources.  Per spec §4.2 it is the pure
elementwise function
`-log(sigma) - 0.5*log(2*pi) - (x - mu)^2 / (2*sigma^2)`. -/
noncomputable def log_gaussian (x mu sigma : ℝ) : ℝ :=
  -Real.log sigma - 0.5 * Real.log (2 * Real.pi) - (x - mu) ^ 2 / (2 * sigma ^ 2)

/-- Mean across entries of a matrix-shaped tensor. -/
noncomputable def matMean {d u : ℕ} (A : Fin d → Fin u → ℝ) : ℝ :=
  (∑ i, ∑ j, A i j) / (d * u)

/-- Mean across entries of a vector-shaped tensor. -/
noncomputable def vecMean {u : ℕ} (v : Fin u → ℝ) : ℝ :=
  (∑ j, v j) / u

/-- A layer as seen by the loss: the variational loss enumerates the
model's layers and touches only the Bayesian (`ProbabilisticDense`) ones;
every other layer kind is opaque to it.  Modelled from the spec (§4.3 and
§2: the `Model` container of `aorun/models.py` is not among the available
sources). -/
inductive ModelLayer where
  | bayesian : (d u : ℕ) → PDState d u → ModelLayer
  | plain : ModelLayer

/-- Modelled from the spec (§4.3): the complexity contribution of one
Bayesian layer — for each of its two sampled tensors, the log-Gaussian
density helper evaluated at `(sample, mu, softplus(rho))` and at
`(sample, 0, sigma_prior)`, their elementwise difference reduced to a
scalar by the mean across entries.  `none` when the layer's forward pass
never ran (no retained sample): a precondition violation per §4.3. -/
noncomputable def layerComplexity {d u : ℕ} (st : PDState d u) : Option ℝ :=
  match st.W, st.b with
  | some w, some bv =>
      some (matMean (fun i j =>
              log_gaussian (w i j) (st.W_mu i j) (softplus (st.W_rho i j)) -
                log_gaussian (w i j) 0 sigma_prior) +
            vecMean (fun j =>
              log_gaussian (bv j) (st.b_mu j) (softplus (st.b_rho j)) -
                log_gaussian (bv j) 0 sigma_prior))
  | _, _ => none

/-- Modelled from the spec (§4.3): the total complexity term, summed over
all Bayesian layers of the model; zero when there are none. -/
noncomputable def complexityTerm : List ModelLayer → Option ℝ
  | [] => some 0
  | ModelLayer.bayesian _ _ st :: rest => do
      let c ← layerComplexity st
      let r ← complexityTerm rest
      pure (c + r)
  | ModelLayer.plain :: rest => complexityTerm rest

/-- Modelled from the spec (§4.3): the data term is the chosen
`log_likelihood` function's output on `(true, predicted)`, sign-adjusted
so that minimizing the loss corresponds to maximizing likelihood. -/
noncomputable def dataTerm {α β : Type} (log_likelihood : α → β → ℝ)
    (t : α) (p : β) : ℝ :=
  -(log_likelihood t p)

/-- Modelled from the spec (§4.3): `variational_loss` of `aorun/losses.py`
(not among the available sources).
`loss = -log_likelihood(true, predicted) + Σ_bayesian [log_density under
posterior − log_density under prior]`; fails (`none`) when some Bayesian
layer has no retained sample. -/
noncomputable def variational_loss {α β : Type} (t : α) (p : β)
    (model : List ModelLayer) (log_likelihood : α → β → ℝ) : Option ℝ :=
  (complexityTerm model).map fun c => dataTerm log_likelihood t p + c

/-- `true` when the layer is Bayesian and its forward pass has populated
both retained sample slots (non-Bayesian layers impose no condition). -/
def hasSample : ModelLayer → Bool
  | ModelLayer.bayesian _ _ st => st.W.isSome && st.b.isSome
  | ModelLayer.plain => true

/-- Every Bayesian layer of the model has retained samples. -/
def allSampled (model : List ModelLayer) : Bool :=
  model.all hasSample

/-- The model contains at least one Bayesian layer. -/
def containsBayesian (model : List ModelLayer) : Bool :=
  model.any fun l => match l with
    | ModelLayer.bayesian _ _ _ => true
    | ModelLayer.plain => false

/-- The closed-form contribution of one layer to the complexity term, in
the shape the claims state it: for a Bayesian layer, the scalar mean of
`log_gaussian(sample, mu, softplus(rho))` minus the scalar mean of
`log_gaussian(sample, 0, exp(-3))`, for each of the weight and bias
tensors; zero for anything else. -/
noncomputable def layerContribution : ModelLayer → ℝ
  | ModelLayer.bayesian _ _ st =>
      match st.W, st.b with
      | some w, some bv =>
          (matMean (fun i j =>
              log_gaussian (w i j) (st.W_mu i j) (softplus (st.W_rho i j))) -
            matMean (fun i j => log_gaussian (w i j) 0 sigma_prior)) +
          (vecMean (fun j =>
              log_gaussian (bv j) (st.b_mu j) (softplus (st.b_rho j))) -
            vecMean (fun j => log_gaussian (bv j) 0 sigma_prior))
      | _, _ => 0
  | ModelLayer.plain => 0

/-- The outputs of the four `self.init(shape, fan_in, fan_out)` calls made
by `ProbabilisticDense.build` (src/aorun/layers.py lines 84–87), in call
order: two weight-shaped (`[d, u]`) tensors and two bias-shaped (`[u]`)
tensors.  The initializer itself is a pluggable external collaborator
(spec §1, §6), so it is modelled by the tensors it returns. -/
structure InitScheme (d u : ℕ) where
  mat1 : Fin d → Fin u → ℝ
  mat2 : Fin d → Fin u → ℝ
  vec1 : Fin u → ℝ
  vec2 : Fin u → ℝ

/-- `ProbabilisticDense.build` (src/aorun/layers.py lines 80–87): records
the input dimension, forms the shapes `[input_dim, output_dim]` and
`[output_dim]`, and allocates the four parameter tensors from the four
initializer calls.  The retained sample slots do not exist yet. -/
def ProbabilisticDense.build {d u : ℕ} (ini : InitScheme d u) : PDState d u :=
  { W_mu := ini.mat1, W_rho := ini.mat2, b_mu := ini.vec1, b_rho := ini.vec2,
    W := none, b := none }

/-- A `ProbabilisticDense` layer as constructed by `__init__`
(src/aorun/layers.py lines 68–74): `built = none` models the state where
`input_dim` was not supplied and `build` has never run, so no parameter
tensors exist; otherwise the layer carries its input width and built
state. -/
structure PDLayer (u : ℕ) where
  built : Option ((d : ℕ) × PDState d u)

/-- `ProbabilisticDense(units)` with no `input_dim`: the guard
`if self.input_dim:` skips the `build` call (src/aorun/layers.py
lines 73–74). -/
def ProbabilisticDense.newNoInputDim (u : ℕ) : PDLayer u := ⟨none⟩

/-- `ProbabilisticDense(units, input_dim=d)`: `__init__` invokes `build`
immediately. -/
def PDLayer.ofBuild {d u : ℕ} (ini : InitScheme d u) : PDLayer u :=
  ⟨some ⟨d, ProbabilisticDense.build ini⟩⟩

/-- `ProbabilisticDense.forward` at the object level.  On an unbuilt layer
(`built = none`) the call fails synchronously — `torch.zeros(None,
units)` raises before any tensor is produced (src/aorun/layers.py
line 92) — embedded as `none`.  On a built layer it defers to the typed
forward pass; a shape mismatch between `X` and the stored `input_dim`
(which would make `X @ W` raise) is also `none`. -/
noncomputable def PDLayer.forward {u bsz dX : ℕ} (l : PDLayer u)
    (X : Fin bsz → Fin dX → ℝ) (nz : (d : ℕ) → Noise d u) :
    Option ((Fin bsz → Fin u → ℝ) × PDLayer u) :=
  match l.built with
  | none => none
  | some ⟨d, st⟩ =>
      if h : dX = d then
        let r := st.forward (fun i k => X i (Fin.cast h.symm k)) (nz d)
        some (r.1, ⟨some ⟨d, r.2⟩⟩)
      else none

/-- The `params` property at the object level (src/aorun/layers.py
lines 76–78): reading `self.W_mu` on a never-built layer raises
(`none`); on a built layer it is the four-tuple
`(W_mu, W_rho, b_mu, b_rho)`. -/
def PDLayer.params {u : ℕ} (l : PDLayer u) :
    Option ((d : ℕ) ×
      ((Fin d → Fin u → ℝ) × (Fin d → Fin u → ℝ) × (Fin u → ℝ) × (Fin u → ℝ))) :=
  l.built.map fun s => ⟨s.1, s.2.paramsTuple⟩

/-- A dynamically-typed input dimension as Python sees it: an actual
`int`, or any non-`int` value. -/
inductive PyDim where
  | int : ℕ → PyDim
  | nonInt : PyDim
  deriving DecidableEq

/-- What a `build` call does with its dimension argument before anything
else: either it stops with an assertion error, or it goes on to attempt
allocation of the parameter tensors with that dimension value. -/
inductive BuildStep where
  | assertionError : BuildStep
  | allocate : PyDim → BuildStep
  deriving DecidableEq

/-- `Dense.build` (src/aorun/layers.py lines 56–59): the very first
statement is `assert type(input_dim) is int`, so a non-int dimension
fails before any allocation; an int proceeds to allocate the torch
Linear layer. -/
def Dense.buildStep : PyDim → BuildStep
  | PyDim.int n => BuildStep.allocate (PyDim.int n)
  | PyDim.nonInt => BuildStep.assertionError

/-- `ProbabilisticDense.build` (src/aorun/layers.py lines 80–87) performs
no type check on `input_dim`: it unconditionally stores it, forms the
shapes and calls the initializer, i.e. allocation is attempted for every
dimension value. -/
def ProbabilisticDense.buildStep : PyDim → BuildStep
  | d => BuildStep.allocate d

/-- Positivity of softplus: `0 < log(1 + exp x)` for every real `x`. -/
theorem softplus_pos (x : ℝ) : 0 < softplus x := by
  have h : (1 : ℝ) < 1 + Real.exp x := by
    have := Real.exp_pos x
    linarith
  exact Real.log_pos h

/-- C6: For every finite rho (elementwise, any shape), the scale
`softplus(rho) = log(1 + exp rho)` used to build the sampled weights and
passed as the posterior sigma is strictly positive; in particular both
scale tensors of any ProbabilisticDense state are entrywise positive, so
the degenerate zero/negative-scale branch of the log-density never
arises from internal state. -/
theorem softplus_scale_positive :
    (∀ x : ℝ, 0 < softplus x) ∧
    ∀ (d u : ℕ) (st : PDState d u) (i : Fin d) (j : Fin u),
      0 < softplus (st.W_rho i j) ∧ 0 < softplus (st.b_rho j) :=
  ⟨softplus_pos, fun _ _ _ _ _ => ⟨softplus_pos _, softplus_pos _⟩⟩

/-- C2: forward on a built layer returns
`X @ (W_mu + softplus(W_rho) * eps_W) + broadcast(b_mu + softplus(b_rho)
* eps_b)`, where `eps_W`, `eps_b` are the noise tensors drawn during that
call; the output's `[batch, units]` shape is its type. -/
theorem probabilistic_forward_formula {d u bsz : ℕ} (st : PDState d u)
    (X : Fin bsz → Fin d → ℝ) (nz : Noise d u) :
    (st.forward X nz).1 = fun r c =>
      (∑ k, X r k * (st.W_mu k c + softplus (st.W_rho k c) * nz.epsW k c)) +
        (st.b_mu c + softplus (st.b_rho c) * nz.epsb c) :=
  rfl

/-- C3: the noise tensors of one forward call are this call's draws, with
entrywise mean `0` and scale `sigma_prior = exp(-3)` — the same scale as
the fixed prior; the retained samples are built from them, and the
learnable-parameter tuple neither changes nor ever contains the noise. -/
theorem forward_noise_fresh_scaled {d u bsz : ℕ} (st : PDState d u)
    (X : Fin bsz → Fin d → ℝ) (nz : Noise d u) :
    (∀ i j, nz.epsW i j = 0 + sigma_prior * nz.zW i j) ∧
    (∀ j, nz.epsb j = 0 + sigma_prior * nz.zb j) ∧
    sigma_prior = Real.exp (-3) ∧
    (st.forward X nz).2.W = some (sampleW st nz) ∧
    (st.forward X nz).2.b = some (sampleb st nz) ∧
    (st.forward X nz).2.paramsTuple = st.paramsTuple :=
  ⟨fun _ _ => rfl, fun _ => rfl, rfl, rfl, rfl, rfl⟩

/-- C5: forward fully overwrites the retained sample slots with values
depending only on this call's draws (no accumulation), leaves the four
parameter tensors untouched, produces the same result whatever the slots
previously held, and the variational loss after two forward calls
coincides with the loss determined by the second call alone. -/
theorem forward_frame_and_overwrite {d u bsz bsz2 : ℕ} (st : PDState d u)
    (X : Fin bsz → Fin d → ℝ) (nz : Noise d u) :
    ((st.forward X nz).2.W_mu = st.W_mu ∧
      (st.forward X nz).2.W_rho = st.W_rho ∧
      (st.forward X nz).2.b_mu = st.b_mu ∧
      (st.forward X nz).2.b_rho = st.b_rho) ∧
    ((st.forward X nz).2.W = some (sampleW st nz) ∧
      (st.forward X nz).2.b = some (sampleb st nz)) ∧
    (∀ (w0 : Option (Fin d → Fin u → ℝ)) (b0 : Option (Fin u → ℝ)),
      ({ st with W := w0, b := b0 } : PDState d u).forward X nz =
        st.forward X nz) ∧
    (∀ (X2 : Fin bsz2 → Fin d → ℝ) (nz2 : Noise d u) (α β : Type)
        (t : α) (p : β) (ll : α → β → ℝ),
      variational_loss t p
          [ModelLayer.bayesian d u (((st.forward X nz).2).forward X2 nz2).2] ll =
        variational_loss t p [ModelLayer.bayesian d u (st.forward X2 nz2).2] ll) :=
  ⟨⟨rfl, rfl, rfl, rfl⟩, ⟨rfl, rfl⟩, fun _ _ => rfl,
    fun _ _ _ _ _ _ _ => rfl⟩

/-- C4: at `x = mu` the log-Gaussian density helper evaluates exactly to
`-log(s) - 0.5*log(2*pi)` for any mean `mu` and positive scale `s`. -/
theorem log_gaussian_at_mean (mu s : ℝ) (hs : 0 < s) :
    log_gaussian mu mu s = -Real.log s - 0.5 * Real.log (2 * Real.pi) := by
  simp [log_gaussian]

/-- Witness for C4 at `mu = 0`, `s = 1`. -/
theorem log_gaussian_at_mean_witness :
    0 < (1 : ℝ) ∧
      log_gaussian 0 0 1 = -Real.log 1 - 0.5 * Real.log (2 * Real.pi) :=
  ⟨one_pos, log_gaussian_at_mean 0 1 one_pos⟩

/-- Mean of an entrywise difference is the difference of the means
(matrix shape). -/
theorem matMean_sub {d u : ℕ} (A B : Fin d → Fin u → ℝ) :
    matMean (fun i j => A i j - B i j) = matMean A - matMean B := by
  simp [matMean, Finset.sum_sub_distrib, sub_div]

/-- Mean of an entrywise difference is the difference of the means
(vector shape). -/
theorem vecMean_sub {u : ℕ} (v w : Fin u → ℝ) :
    vecMean (fun j => v j - w j) = vecMean v - vecMean w := by
  simp [vecMean, Finset.sum_sub_distrib, sub_div]

/-- A Bayesian layer whose samples are populated contributes exactly its
closed-form `layerContribution`. -/
theorem layerComplexity_eq_contribution {d u : ℕ} (st : PDState d u)
    (w : Fin d → Fin u → ℝ) (bv : Fin u → ℝ)
    (hW : st.W = some w) (hb : st.b = some bv) :
    layerComplexity st = some (layerContribution (ModelLayer.bayesian d u st)) := by
  simp [layerComplexity, layerContribution, hW, hb, matMean_sub, vecMean_sub]

/-- When every Bayesian layer has retained samples, the complexity term
succeeds and equals the sum of the per-layer contributions. -/
theorem complexityTerm_eq_sum :
    ∀ model : List ModelLayer, allSampled model = true →
      complexityTerm model = some ((model.map layerContribution).sum) := by
  intro model
  induction model with
  | nil => intro _; rfl
  | cons hd tl ih =>
    intro h
    rw [allSampled, List.all_cons, Bool.and_eq_true] at h
    obtain ⟨hhd, htl⟩ := h
    cases hd with
    | plain =>
      rw [complexityTerm, ih htl]
      simp [layerContribution]
    | bayesian d u st =>
      rw [hasSample, Bool.and_eq_true, Option.isSome_iff_exists,
        Option.isSome_iff_exists] at hhd
      obtain ⟨⟨w, hW⟩, ⟨bv, hb⟩⟩ := hhd
      rw [complexityTerm]
      rw [layerComplexity_eq_contribution st w bv hW hb, ih htl]
      rfl

/-- C1: for a model whose Bayesian layers all carry retained samples and
which has at least one Bayesian layer, the variational loss is the
sign-adjusted data term plus, for each Bayesian layer and each of its two
sampled tensors, the mean posterior log-density minus the mean prior
log-density at the sample. -/
theorem variational_loss_closed_form {α β : Type} (t : α) (p : β)
    (model : List ModelLayer) (ll : α → β → ℝ)
    (hAll : allSampled model = true) (hBayes : containsBayesian model = true) :
    variational_loss t p model ll =
      some (dataTerm ll t p + (model.map layerContribution).sum) := by
  rw [variational_loss, complexityTerm_eq_sum model hAll]
  rfl

/-- A one-layer Bayesian model with populated samples, for the C1
witness. -/
def sampledUnitState : PDState 1 1 :=
  { W_mu := fun _ _ => 0, W_rho := fun _ _ => 0, b_mu := fun _ => 0,
    b_rho := fun _ => 0, W := some fun _ _ => 0, b := some fun _ => 0 }

/-- A concrete model containing one Bayesian layer with samples. -/
def unitModel : List ModelLayer := [ModelLayer.bayesian 1 1 sampledUnitState]

/-- Witness for C1 on the concrete one-Bayesian-layer model. -/
theorem variational_loss_closed_form_witness :
    allSampled unitModel = true ∧ containsBayesian unitModel = true ∧
      variational_loss (0 : ℝ) (0 : ℝ) unitModel (fun _ _ => 0) =
        some (dataTerm (fun _ _ => (0 : ℝ)) (0 : ℝ) (0 : ℝ) +
          (unitModel.map layerContribution).sum) :=
  ⟨rfl, rfl, variational_loss_closed_form 0 0 unitModel (fun _ _ => 0) rfl rfl⟩

/-- With no Bayesian layers the complexity term is exactly zero. -/
theorem complexityTerm_no_bayesian :
    ∀ model : List ModelLayer, containsBayesian model = false →
      complexityTerm model = some 0 := by
  intro model
  induction model with
  | nil => intro _; rfl
  | cons hd tl ih =>
    intro h
    cases hd with
    | bayesian d u st => simp [containsBayesian] at h
    | plain =>
      have htl : containsBayesian tl = false := by
        simpa [containsBayesian] using h
      rw [complexityTerm, ih htl]

/-- C7: on a model with no Bayesian layers the variational loss does not
fail and is exactly the bare data-term value. -/
theorem variational_loss_no_bayesian {α β : Type} (t : α) (p : β)
    (model : List ModelLayer) (ll : α → β → ℝ)
    (h : containsBayesian model = false) :
    variational_loss t p model ll = some (dataTerm ll t p) := by
  rw [variational_loss, complexityTerm_no_bayesian model h]
  simp

/-- A concrete model with a single non-Bayesian layer. -/
def plainModel : List ModelLayer := [ModelLayer.plain]

/-- Witness for C7 on the concrete Bayesian-free model. -/
theorem variational_loss_no_bayesian_witness :
    containsBayesian plainModel = false ∧
      variational_loss (1 : ℝ) (2 : ℝ) plainModel (fun a b => a * b) =
        some (dataTerm (fun a b => a * b) (1 : ℝ) (2 : ℝ)) :=
  ⟨rfl, variational_loss_no_bayesian 1 2 plainModel (fun a b => a * b) rfl⟩

/-- Counterexample to C8 as stated: `ProbabilisticDense.build` on a
non-int dimension does not stop with the assertion error that
`Dense.build` raises — it goes on to attempt allocation. -/
theorem probabilistic_build_no_nonint_check :
    ProbabilisticDense.buildStep PyDim.nonInt ≠ BuildStep.assertionError ∧
      Dense.buildStep PyDim.nonInt = BuildStep.assertionError := by
  decide

/-- C8 amended: `Dense.build` signals a non-integer input dimension
immediately, before allocating; `ProbabilisticDense.build` performs no
such check and proceeds to allocation for every dimension value. -/
theorem dense_checks_nonint_probabilistic_does_not :
    Dense.buildStep PyDim.nonInt = BuildStep.assertionError ∧
      ∀ d : PyDim, ProbabilisticDense.buildStep d = BuildStep.allocate d :=
  ⟨rfl, fun _ => rfl⟩

/-- C9: forward on a layer constructed without `input_dim` and never
built fails synchronously and returns no tensor. -/
theorem forward_before_build_fails (u bsz dX : ℕ)
    (X : Fin bsz → Fin dX → ℝ) (nz : (d : ℕ) → Noise d u) :
    (ProbabilisticDense.newNoInputDim u).forward X nz = none :=
  rfl

/-- C10: the `params` property fails on a never-built layer; after
`build(d)` it is exactly the four parameter tensors `(W_mu, W_rho, b_mu,
b_rho)` in that order (shapes `[d, units]`, `[d, units]`, `[units]`,
`[units]` carried by the types), and it never depends on the sampled
`W`/`b` slots. -/
theorem params_accessor_spec :
    (∀ u : ℕ, (ProbabilisticDense.newNoInputDim u).params = none) ∧
    (∀ (d u : ℕ) (ini : InitScheme d u),
      (PDLayer.ofBuild ini : PDLayer u).params =
        some ⟨d, ((ProbabilisticDense.build ini).W_mu,
                  (ProbabilisticDense.build ini).W_rho,
                  (ProbabilisticDense.build ini).b_mu,
                  (ProbabilisticDense.build ini).b_rho)⟩) ∧
    (∀ (d u : ℕ) (st : PDState d u) (w0 : Option (Fin d → Fin u → ℝ))
        (b0 : Option (Fin u → ℝ)),
      (PDLayer.mk (some ⟨d, { st with W := w0, b := b0 }⟩) : PDLayer u).params =
        (PDLayer.mk (some ⟨d, st⟩)).params) :=
  ⟨fun _ => rfl, fun _ _ _ => rfl, fun _ _ _ _ _ => rfl⟩
